import Mathlib

/-!
Shallow embedding of the ImageResizer repository (Next.js app) for checking
its natural-language specification.

Server side: `src/app/api/resize/route.ts` (the POST handler).
Client side: `src/app/page.tsx` (the session controller of the Home page).

JavaScript numbers appearing as integers are modelled as `Int`/`Nat`;
`parseInt` is modelled faithfully (whitespace skip, optional sign, optional
hex radix marker, maximal digit run, NaN as `none`).  Aspect-ratio
arithmetic uses `ℚ` with `round` (which equals floor of x + 1/2, matching
the rounding used by the page).  The external codec (sharp) and the browser
are collaborators: the embedding records exactly the parameters the code
hands to them.
-/

/-! ### JavaScript parseInt model -/

/-- Whitespace characters skipped by parseInt before reading a number. -/
def isWSpace (c : Char) : Bool :=
  c == ' ' || c == '\t' || c == '\n' || c == '\r'

/-- Decimal digit test. -/
def decDigit (c : Char) : Bool := '0' ≤ c && c ≤ '9'

/-- Hexadecimal digit test. -/
def hexDigit (c : Char) : Bool :=
  decDigit c || ('a' ≤ c && c ≤ 'f') || ('A' ≤ c && c ≤ 'F')

/-- Numeric value of one digit character. -/
def digitValue (c : Char) : Nat :=
  if decDigit c then c.toNat - '0'.toNat
  else if 'a' ≤ c && c ≤ 'f' then c.toNat - 'a'.toNat + 10
  else c.toNat - 'A'.toNat + 10

/-- Value of a digit run in the given base. -/
def digitsValue (base : Nat) (ds : List Char) : Nat :=
  ds.foldl (fun acc c => acc * base + digitValue c) 0

/-- Split a leading sign character, as parseInt does. -/
def jsSignSplit : List Char → Int × List Char
  | '-' :: rest => (-1, rest)
  | '+' :: rest => (1, rest)
  | cs => (1, cs)

/-- Split a leading 0x or 0X radix marker, as parseInt does. -/
def jsRadixSplit : List Char → Nat × List Char
  | '0' :: 'x' :: rest => (16, rest)
  | '0' :: 'X' :: rest => (16, rest)
  | cs => (10, cs)

/-- Digit test for the detected base. -/
def jsDigit (base : Nat) (c : Char) : Bool :=
  if base == 16 then hexDigit c else decDigit c

/-- JavaScript parseInt on a form field.  A missing field (formData.get
returning null) coerces to a non-numeric string, hence NaN; NaN is `none`.
Otherwise: skip whitespace, optional sign, optional 0x marker, then the
maximal run of digits; no digits means NaN. -/
def jsParseInt : Option String → Option Int
  | none => none
  | some s =>
    let t := s.data.dropWhile isWSpace
    let p := jsSignSplit t
    let r := jsRadixSplit p.2
    let ds := r.2.takeWhile (jsDigit r.1)
    if ds.isEmpty then none
    else some (p.1 * (digitsValue r.1 ds : Int))

/-! ### Resize endpoint (src/app/api/resize/route.ts) -/

/-- The uploaded file part of the multipart form; the handler only inspects
its declared MIME type. -/
structure UploadFile where
  mimeType : String
deriving DecidableEq

/-- The multipart form of a POST to /api/resize.  Absent fields are `none`
(formData.get returns null). -/
structure ResizeForm where
  image : Option UploadFile
  width : Option String
  height : Option String
  format : Option String
  quality : Option String
deriving DecidableEq

/-- The background colour handed to sharp resize; alpha is 0 or 1 as the
route writes it. -/
structure RGBA where
  r : Nat
  g : Nat
  b : Nat
  alpha : Nat
deriving DecidableEq

/-- Which arm of the format switch ran, with the options passed to the
encoder in that arm.  jpegEnc is the shared jpeg/jpg case (quality,
progressive, mozjpeg, force); webpEnc carries quality, effort, nearLossless,
force; pngEnc carries quality, compressionLevel, force; fallbackEnc is the
default arm (jpeg at quality 100, force). -/
inductive EncodeChoice where
  | jpegEnc (quality : Int) (progressive mozjpeg force : Bool)
  | webpEnc (quality : Int) (effort : Nat) (nearLossless force : Bool)
  | pngEnc (quality : Int) (compressionLevel : Nat) (force : Bool)
  | fallbackEnc (quality : Int) (force : Bool)
deriving DecidableEq

/-- True exactly when the default arm of the switch ran. -/
def EncodeChoice.isFallback : EncodeChoice → Bool
  | .fallbackEnc _ _ => true
  | _ => false

/-- The MIME allow-list checked against the uploaded file type. -/
def mimeAllowed (f : UploadFile) : Bool :=
  f.mimeType == "image/jpeg" || f.mimeType == "image/jpg" ||
  f.mimeType == "image/png" || f.mimeType == "image/webp"

/-- The truthy-and-positive test the route applies to each parsed
dimension: NaN and non-positive values fail. -/
def posIntVal : Option Int → Bool
  | some n => decide (0 < n)
  | none => false

/-- The format allow-list check; a missing field is the null string, which
is not in the list. -/
def formatValid : Option String → Bool
  | some f => f == "jpeg" || f == "jpg" || f == "png" || f == "webp"
  | none => false

/-- The quality check: parsed value present and within 1..100. -/
def qualityOk : Option Int → Bool
  | some n => decide (1 ≤ n) && decide (n ≤ 100)
  | none => false

/-- Background selection of the route: transparent black base for png,
opaque white for every other format. -/
def backgroundFor (format : String) : RGBA :=
  if format == "png" then ⟨0, 0, 0, 0⟩ else ⟨255, 255, 255, 1⟩

/-- The format switch of the route, recording which arm ran and the encoder
options passed in that arm. -/
def selectEncoder (format : String) (quality : Int) : EncodeChoice :=
  if format == "jpeg" || format == "jpg" then
    .jpegEnc quality true true true
  else if format == "webp" then
    .webpEnc quality 6 (decide (90 ≤ quality)) true
  else if format == "png" then
    .pngEnc quality 9 true
  else
    .fallbackEnc 100 true

/-- The mimeTypes lookup of the route (empty string stands for the
undefined lookup on a key outside the map, unreachable past validation). -/
def mimeTypeFor (format : String) : String :=
  if format == "jpeg" then "image/jpeg"
  else if format == "jpg" then "image/jpeg"
  else if format == "webp" then "image/webp"
  else if format == "png" then "image/png"
  else ""

/-- The successful response of the route: status, headers, and the
parameters handed to the codec. -/
structure OkResponse where
  status : Nat
  contentType : String
  disposition : String
  cacheControl : String
  background : RGBA
  choice : EncodeChoice
  format : String
  width : Int
  height : Int
deriving DecidableEq

/-- Outcome of the POST handler: a JSON error with a status, or the
processed image response. -/
inductive PostResult where
  | clientError (status : Nat) (msg : String)
  | ok (r : OkResponse)
deriving DecidableEq

/-- The POST handler of src/app/api/resize/route.ts: parse the five fields,
run the five checks in source order, then build the processing response. -/
def POST (form : ResizeForm) : PostResult :=
  match form.image with
  | none => .clientError 400 "No image file provided"
  | some img =>
    if mimeAllowed img = false then
      .clientError 400 "Unsupported file type. Only JPEG, JPG, PNG, and WebP images are allowed."
    else if (posIntVal (jsParseInt form.width) && posIntVal (jsParseInt form.height)) = false then
      .clientError 400 "Invalid dimensions provided"
    else if formatValid form.format = false then
      .clientError 400 "Invalid format specified. Only JPEG, JPG, PNG, and WebP are supported."
    else if qualityOk (jsParseInt form.quality) = false then
      .clientError 400 "Invalid quality value"
    else
      .ok { status := 200
            contentType := mimeTypeFor (form.format.getD "")
            disposition := "attachment; filename=\"resized-image." ++ form.format.getD "" ++ "\""
            cacheControl := "no-store, no-cache, must-revalidate, proxy-revalidate"
            background := backgroundFor (form.format.getD "")
            choice := selectEncoder (form.format.getD "") ((jsParseInt form.quality).getD 0)
            format := form.format.getD ""
            width := (jsParseInt form.width).getD 0
            height := (jsParseInt form.height).getD 0 }

/-! ### Client session controller (src/app/page.tsx) -/

/-- Declared format extension of a staged image, the ext union type of the
page. -/
inductive FileExt where
  | jpeg
  | jpg
  | png
  | webp
deriving DecidableEq

/-- String form of an extension, as appended to the form data. -/
def extString : FileExt → String
  | .jpeg => "jpeg"
  | .jpg => "jpg"
  | .png => "png"
  | .webp => "webp"

/-- A browser File as the page sees it: name, byte size, declared MIME
type, and the intrinsic pixel dimensions the client-side decode reports. -/
structure JFile where
  name : String
  size : Nat
  mimeType : String
  width : Int
  height : Int
deriving DecidableEq

/-- The split of a character list at dots, as name.split of JavaScript:
the empty name gives one empty segment. -/
def splitOnDot : List Char → List (List Char)
  | [] => [[]]
  | c :: cs =>
    let r := splitOnDot cs
    if c = '.' then [] :: r
    else
      match r with
      | t :: ts => (c :: t) :: ts
      | [] => [[c]]

/-- The last dot-separated segment of a file name, lowercased: the value of
name.split followed by pop and toLowerCase in getExt of the page. -/
def lastDotSegment (name : String) : String :=
  String.mk (((splitOnDot name.data).getLastD []).map Char.toLower)

/-- getExt of the page: lowercase the last dot-separated segment of the
file name and map it to the ext union, defaulting to webp. -/
def getExt (f : JFile) : FileExt :=
  let e := lastDotSegment f.name
  if e == "jpeg" then .jpeg
  else if e == "jpg" then .jpg
  else if e == "png" then .png
  else .webp

/-- 5 MB upload limit of the page. -/
def MAX_FILE_SIZE : Nat := 5 * 1024 * 1024

/-- Client-side MIME allow-list of the page. -/
def allowedUploadTypes : List String :=
  ["image/jpeg", "image/jpg", "image/png", "image/webp"]

/-- validateFile of the page: size limit first, then the MIME allow-list;
`none` means the file is accepted. -/
def validateFile (f : JFile) : Option String :=
  if MAX_FILE_SIZE < f.size then
    some "File size must be less than 5MB"
  else if allowedUploadTypes.contains f.mimeType = false then
    some "Please upload a valid image file (JPEG, PNG, or WebP)"
  else none

/-- A staged image of the page (the preview data URL is not modelled). -/
structure ImageData where
  file : JFile
  width : Int
  height : Int
  id : String
  ext : FileExt
deriving DecidableEq

/-- The shared resize settings of the page. -/
structure ResizeOptions where
  width : Int
  height : Int
  quality : Int
  maintainAspectRatio : Bool
deriving DecidableEq

/-- The client session state: staged originals, the cached resized results
keyed by image identifier (an association list standing for the object
map), the loading flag, the surfaced error, and the shared settings. -/
structure SessionState where
  originalImages : List ImageData
  resizedImages : List (String × String)
  isLoading : Bool
  error : Option String
  resizeOptions : ResizeOptions
deriving DecidableEq

/-- The initial state of the page component. -/
def initState : SessionState :=
  { originalImages := []
    resizedImages := []
    isLoading := false
    error := none
    resizeOptions := { width := 800, height := 600, quality := 100, maintainAspectRatio := true } }

/-- Object-map update: newResizedImages of the page assigns url to the key,
replacing any earlier binding of the same key. -/
def mapInsert (m : List (String × String)) (k v : String) : List (String × String) :=
  m.filter (fun p => p.1 != k) ++ [(k, v)]

/-- ImageData built by the onload callback of handleFileSelect: the
detected dimensions and the extension computed by getExt. -/
def mkImageData (f : JFile) (id : String) : ImageData :=
  { file := f, width := f.width, height := f.height, id := id, ext := getExt f }

/-- The over-count error message of handleFileSelect, with the count of
images that may still be added. -/
def maxImagesMessage (n : Nat) : String :=
  "Maximum 10 images allowed. You can upload " ++ toString ((10 : Int) - (n : Int)) ++ " more images."

/-- The onload completion for one accepted file: append the staged image,
and seed the shared width and height from the decoded dimensions when the
image count captured at handler entry was zero.  The captured count is the
stale closure value the page reads, identical for every file of one
batch. -/
def stageOne (capturedLen : Nat) (st : SessionState) (fi : JFile × String) : SessionState :=
  let img := mkImageData fi.1 fi.2
  let st1 := { st with originalImages := st.originalImages ++ [img] }
  if capturedLen = 0 then
    { st1 with resizeOptions := { st1.resizeOptions with width := fi.1.width, height := fi.1.height } }
  else st1

/-- handleFileSelect of the page on a batch of files, each paired with the
random identifier it would receive.  The count check rejects the whole
batch; otherwise each file is validated (an invalid file only sets the
error and is skipped), the error ends at the last validation failure or is
cleared, and the accepted files complete their asynchronous load in
order. -/
def handleFileSelect (s : SessionState) (files : List (JFile × String)) : SessionState :=
  if 10 < s.originalImages.length + files.length then
    { s with error := some (maxImagesMessage s.originalImages.length) }
  else
    let accepted := files.filter (fun fi => (validateFile fi.1).isNone)
    let failures := files.filterMap (fun fi => validateFile fi.1)
    let s1 := { s with error := failures.getLast? }
    accepted.foldl (stageOne s.originalImages.length) s1

/-- Which dimension field the user edited. -/
inductive DimKind where
  | width
  | height
deriving DecidableEq

/-- handleDimensionChange of the page: with the lock on, an edited width
recomputes height through the aspect ratio of the first staged image (and
symmetrically); with the lock off only the edited field changes; with no
staged image the state is returned unchanged. -/
def handleDimensionChange (s : SessionState) (kind : DimKind) (value : Int) : SessionState :=
  match s.originalImages with
  | [] => s
  | first :: _ =>
    let aspect : ℚ := (first.width : ℚ) / (first.height : ℚ)
    if s.resizeOptions.maintainAspectRatio then
      match kind with
      | .width =>
        { s with resizeOptions :=
            { s.resizeOptions with width := value, height := round ((value : ℚ) / aspect) } }
      | .height =>
        { s with resizeOptions :=
            { s.resizeOptions with height := value, width := round ((value : ℚ) * aspect) } }
    else
      match kind with
      | .width => { s with resizeOptions := { s.resizeOptions with width := value } }
      | .height => { s with resizeOptions := { s.resizeOptions with height := value } }

/-- One resize request of the batch loop, with the fields exactly as
appended to the form data. -/
structure ResizeReq where
  fileName : String
  widthField : String
  heightField : String
  formatField : String
  qualityField : String
deriving DecidableEq

/-- The form data handleResize builds for one image: the shared settings as
strings and the original format of that image. -/
def toReq (opts : ResizeOptions) (img : ImageData) : ResizeReq :=
  { fileName := img.file.name
    widthField := toString opts.width
    heightField := toString opts.height
    formatField := extString img.ext
    qualityField := toString opts.quality }

/-- The sequential loop of handleResize.  `respond` is the network oracle:
`some url` is an ok response turned into an object URL, `none` a failed
response.  Returns the requests issued in order and either the accumulated
local result map or the name of the failing file. -/
def runBatch (opts : ResizeOptions) (respond : ImageData → Option String) :
    List ImageData → List (String × String) → List ResizeReq × Except String (List (String × String))
  | [], acc => ([], .ok acc)
  | img :: rest, acc =>
    match respond img with
    | none => ([toReq opts img], .error img.file.name)
    | some url =>
      let t := runBatch opts respond rest (mapInsert acc img.id url)
      (toReq opts img :: t.1, t.2)

/-- handleResize of the page: with no staged image return immediately;
otherwise run the batch sequentially over a fresh local map.  On success
the local map replaces the cached results; on the first failure the loop
stops, the cached results are left untouched, and the error names the
failing file.  The second component lists the requests issued. -/
def handleResize (s : SessionState) (respond : ImageData → Option String) :
    SessionState × List ResizeReq :=
  if s.originalImages.length = 0 then (s, [])
  else
    let s0 := { s with isLoading := true, error := none }
    let t := runBatch s.resizeOptions respond s.originalImages []
    match t.2 with
    | .ok m => ({ s0 with resizedImages := m, isLoading := false }, t.1)
    | .error name =>
      ({ s0 with error := some ("Failed to resize image: " ++ name), isLoading := false }, t.1)

/-- removeImage of the page: drop the staged image and delete its cached
result. -/
def removeImage (s : SessionState) (id : String) : SessionState :=
  { s with originalImages := s.originalImages.filter (fun img => img.id != id)
           resizedImages := s.resizedImages.filter (fun p => p.1 != id) }

/-- clearAll of the page: empty both collections and reset error and
loading state (the shared settings are kept). -/
def clearAll (s : SessionState) : SessionState :=
  { s with originalImages := []
           resizedImages := []
           error := none
           isLoading := false }

/-- A controller operation of the page. -/
inductive Op where
  | select (files : List (JFile × String))
  | dims (kind : DimKind) (value : Int)
  | resize (respond : ImageData → Option String)
  | remove (id : String)
  | clear

/-- One controller step. -/
def step (s : SessionState) : Op → SessionState
  | .select files => handleFileSelect s files
  | .dims k v => handleDimensionChange s k v
  | .resize respond => (handleResize s respond).1
  | .remove id => removeImage s id
  | .clear => clearAll s

/-- Run a sequence of controller operations from the initial state. -/
def run (ops : List Op) : SessionState :=
  ops.foldl step initState

/-- Containment invariant: every key of the cached result map is the
identifier of some currently staged image. -/
def resultKeysCovered (s : SessionState) : Prop :=
  ∀ k ∈ s.resizedImages.map Prod.fst, ∃ img ∈ s.originalImages, img.id = k

/-! ### Theorems: resize endpoint claims -/

/-- The first validation check, in isolation: the image field missing. -/
def failsMissingImage (form : ResizeForm) : Bool := form.image.isNone

/-- The second validation check, in isolation: a present image whose MIME
type is outside the allow-list. -/
def failsMimeCheck (form : ResizeForm) : Bool :=
  match form.image with
  | some img => !mimeAllowed img
  | none => false

/-- The third validation check, in isolation: a width or height that does
not parse to a positive value. -/
def failsDimsCheck (form : ResizeForm) : Bool :=
  !(posIntVal (jsParseInt form.width) && posIntVal (jsParseInt form.height))

/-- The fourth validation check, in isolation: a format outside the
allowed set. -/
def failsFormatCheck (form : ResizeForm) : Bool := !formatValid form.format

/-- The fifth validation check, in isolation: a quality missing or outside
1..100. -/
def failsQualityCheck (form : ResizeForm) : Bool := !qualityOk (jsParseInt form.quality)

/-- Modelled from the claim wording: the human-readable message of the
first failing check in the stated order missing image, MIME type,
dimensions, format, quality. -/
def firstValidationError (form : ResizeForm) : Option String :=
  if failsMissingImage form then some "No image file provided"
  else if failsMimeCheck form then
    some "Unsupported file type. Only JPEG, JPG, PNG, and WebP images are allowed."
  else if failsDimsCheck form then some "Invalid dimensions provided"
  else if failsFormatCheck form then
    some "Invalid format specified. Only JPEG, JPG, PNG, and WebP are supported."
  else if failsQualityCheck form then some "Invalid quality value"
  else none

/-- C4 (confirmed): every multipart request failing at least one of the
five validation checks is answered 400 with the message of the first
failing check in the fixed order missing image, MIME type, dimensions,
format, quality; such a request never produces the 500 response and never
reaches the codec processing stage. -/
theorem c4_validation_first_failure (form : ResizeForm)
    (h : (failsMissingImage form || failsMimeCheck form || failsDimsCheck form ||
          failsFormatCheck form || failsQualityCheck form) = true) :
    POST form = PostResult.clientError 400 ((firstValidationError form).getD "") ∧
    (firstValidationError form).isSome = true := by
  cases himg : form.image with
  | none =>
    simp [POST, firstValidationError, failsMissingImage, himg]
  | some img =>
    have hm : failsMimeCheck form = !mimeAllowed img := by
      simp [failsMimeCheck, himg]
    by_cases h1 : mimeAllowed img <;>
      by_cases h2a : posIntVal (jsParseInt form.width) = true <;>
        by_cases h2b : posIntVal (jsParseInt form.height) = true <;>
          by_cases h3 : formatValid form.format = true <;>
            by_cases h4 : qualityOk (jsParseInt form.quality) = true <;>
              simp_all [POST, firstValidationError, failsMissingImage, failsMimeCheck,
                        failsDimsCheck, failsFormatCheck, failsQualityCheck, himg]

/-- C4 witness: a request with the image field missing is rejected with the
message of the first check. -/
theorem c4_witness :
    POST { image := none, width := some "100", height := some "50",
           format := some "png", quality := some "80" } =
      PostResult.clientError 400
        ((firstValidationError { image := none, width := some "100", height := some "50",
                                 format := some "png", quality := some "80" }).getD "") ∧
    (firstValidationError { image := none, width := some "100", height := some "50",
                            format := some "png", quality := some "80" }).isSome = true :=
  c4_validation_first_failure _ (by decide)

/-- Modelled from the claim wording of C5: a string that is the decimal
representation of a positive integer (digits only, positive value). -/
def claimDecimalPosInt (s : String) : Bool :=
  !s.data.isEmpty && s.data.all decDigit && decide (0 < digitsValue 10 s.data)

/-- C5 counterexample: the width 12px is not the decimal representation of
a positive integer, yet the request is not rejected with the
invalid-dimensions error; parseInt accepts the numeric prefix and the image
is processed at width 12. -/
theorem c5_counterexample :
    claimDecimalPosInt "12px" = false ∧
    POST { image := some ⟨"image/png"⟩, width := some "12px", height := some "34",
           format := some "png", quality := some "80" } ≠
      PostResult.clientError 400 "Invalid dimensions provided" ∧
    POST { image := some ⟨"image/png"⟩, width := some "12px", height := some "34",
           format := some "png", quality := some "80" } =
      PostResult.ok { status := 200, contentType := "image/png",
                      disposition := "attachment; filename=\"resized-image.png\"",
                      cacheControl := "no-store, no-cache, must-revalidate, proxy-revalidate",
                      background := ⟨0, 0, 0, 0⟩, choice := .pngEnc 80 9 true,
                      format := "png", width := 12, height := 34 } := by
  decide

/-- C5 (amended): when the image is present with an allowed MIME type, a
request whose width or height parses (by the parseInt rules: optional sign,
optional 0x marker, maximal digit run) to no value, zero, or a negative
value is answered 400 with the invalid-dimensions error; in particular
width 0, height -5 and width x are rejected this way, while a string with a
positive numeric prefix such as 12px is accepted at that prefix value. -/
theorem c5_amended_dimension_rejection (form : ResizeForm) (img : UploadFile)
    (himg : form.image = some img) (hmime : mimeAllowed img = true)
    (hdim : posIntVal (jsParseInt form.width) = false ∨
            posIntVal (jsParseInt form.height) = false) :
    POST form = PostResult.clientError 400 "Invalid dimensions provided" := by
  have hd : (posIntVal (jsParseInt form.width) && posIntVal (jsParseInt form.height)) = false := by
    rcases hdim with h | h <;> simp [h]
  simp [POST, himg, hmime, hd]

/-- C5 witness: width 0, height -5 and width x are each rejected with the
invalid-dimensions error. -/
theorem c5_witness :
    POST { image := some ⟨"image/png"⟩, width := some "0", height := some "10",
           format := some "png", quality := some "80" } =
      PostResult.clientError 400 "Invalid dimensions provided" ∧
    POST { image := some ⟨"image/png"⟩, width := some "10", height := some "-5",
           format := some "png", quality := some "80" } =
      PostResult.clientError 400 "Invalid dimensions provided" ∧
    POST { image := some ⟨"image/png"⟩, width := some "x", height := some "10",
           format := some "png", quality := some "80" } =
      PostResult.clientError 400 "Invalid dimensions provided" :=
  ⟨c5_amended_dimension_rejection _ _ rfl (by decide) (Or.inl (by decide)),
   c5_amended_dimension_rejection _ _ rfl (by decide) (Or.inr (by decide)),
   c5_amended_dimension_rejection _ _ rfl (by decide) (Or.inl (by decide))⟩

/-- The fully transparent black base canvas. -/
def transparentBlack : RGBA := ⟨0, 0, 0, 0⟩

/-- The fully opaque white base canvas. -/
def opaqueWhite : RGBA := ⟨255, 255, 255, 1⟩

/-- C2 (confirmed): every validated request is processed over a fully
transparent black base canvas exactly when the target format is png, and
over a fully opaque white base canvas for every other target format; the
external codec capability receives that base, so png output keeps source
alpha and the other formats are flattened onto white. -/
theorem c2_background_policy (form : ResizeForm) (r : OkResponse)
    (h : POST form = PostResult.ok r) :
    (r.format = "png" → r.background = transparentBlack ∧ r.background.alpha = 0) ∧
    (r.format ≠ "png" → r.background = opaqueWhite ∧ r.background.alpha = 1) := by
  cases himg : form.image with
  | none => simp [POST, himg] at h
  | some img =>
    simp only [POST, himg] at h
    split_ifs at h with h1 h2 h3 h4
    injection h with hr
    subst hr
    refine ⟨fun hf => ?_, fun hf => ?_⟩
    · simp only at hf ⊢
      simp [backgroundFor, transparentBlack, hf]
    · simp only at hf ⊢
      simp [backgroundFor, opaqueWhite, beq_iff_eq, hf]

/-- C6 (confirmed): every request that passes all five checks has a format
in the allowed set and is encoded by the arm of the switch for that format,
never by the defensive default arm (jpeg at quality 100). -/
theorem c6_fallback_unreachable (form : ResizeForm) (r : OkResponse)
    (h : POST form = PostResult.ok r) :
    r.choice.isFallback = false ∧
    (r.format = "jpeg" ∨ r.format = "jpg" ∨ r.format = "png" ∨ r.format = "webp") := by
  cases himg : form.image with
  | none => simp [POST, himg] at h
  | some img =>
    simp only [POST, himg] at h
    split_ifs at h with h1 h2 h3 h4
    injection h with hr
    subst hr
    rw [Bool.not_eq_false] at h3
    cases hf : form.format with
    | none => rw [hf] at h3; cases h3
    | some f =>
      rw [hf] at h3
      simp only [formatValid, Bool.or_eq_true, beq_iff_eq] at h3
      simp only [hf, Option.getD_some]
      rcases h3 with ((hf1 | hf1) | hf1) | hf1 <;> subst hf1 <;>
        exact ⟨rfl, by simp⟩

/-- A valid png request, for the C2 witness. -/
def c2PngForm : ResizeForm :=
  { image := some ⟨"image/png"⟩, width := some "100", height := some "50",
    format := some "png", quality := some "80" }

/-- The response to the valid png request of the C2 witness. -/
def c2PngResp : OkResponse :=
  { status := 200, contentType := "image/png",
    disposition := "attachment; filename=\"resized-image.png\"",
    cacheControl := "no-store, no-cache, must-revalidate, proxy-revalidate",
    background := ⟨0, 0, 0, 0⟩, choice := .pngEnc 80 9 true,
    format := "png", width := 100, height := 50 }

/-- A valid jpeg request, for the C2 witness. -/
def c2JpegForm : ResizeForm :=
  { image := some ⟨"image/jpeg"⟩, width := some "100", height := some "50",
    format := some "jpeg", quality := some "80" }

/-- The response to the valid jpeg request of the C2 witness. -/
def c2JpegResp : OkResponse :=
  { status := 200, contentType := "image/jpeg",
    disposition := "attachment; filename=\"resized-image.jpeg\"",
    cacheControl := "no-store, no-cache, must-revalidate, proxy-revalidate",
    background := ⟨255, 255, 255, 1⟩, choice := .jpegEnc 80 true true true,
    format := "jpeg", width := 100, height := 50 }

/-- C2 witness: a validated png request gets the transparent black base and
a validated jpeg request gets the opaque white base. -/
theorem c2_witness :
    (c2PngResp.background = transparentBlack ∧ c2PngResp.background.alpha = 0) ∧
    (c2JpegResp.background = opaqueWhite ∧ c2JpegResp.background.alpha = 1) :=
  ⟨(c2_background_policy c2PngForm c2PngResp (by decide)).1 rfl,
   (c2_background_policy c2JpegForm c2JpegResp (by decide)).2 (by decide)⟩

/-- A valid webp request, for the C6 witness. -/
def c6WebpForm : ResizeForm :=
  { image := some ⟨"image/webp"⟩, width := some "64", height := some "64",
    format := some "webp", quality := some "95" }

/-- The response to the valid webp request of the C6 witness. -/
def c6WebpResp : OkResponse :=
  { status := 200, contentType := "image/webp",
    disposition := "attachment; filename=\"resized-image.webp\"",
    cacheControl := "no-store, no-cache, must-revalidate, proxy-revalidate",
    background := ⟨255, 255, 255, 1⟩, choice := .webpEnc 95 6 true true,
    format := "webp", width := 64, height := 64 }

/-- C6 witness: a validated webp request is encoded by the webp arm, not
the default arm. -/
theorem c6_witness :
    c6WebpResp.choice.isFallback = false ∧
    (c6WebpResp.format = "jpeg" ∨ c6WebpResp.format = "jpg" ∨
     c6WebpResp.format = "png" ∨ c6WebpResp.format = "webp") :=
  c6_fallback_unreachable c6WebpForm c6WebpResp (by decide)

/-! ### Helper lemmas about the client controller -/

/-- Completing the loads of a batch appends exactly the staged images, in
order. -/
theorem foldl_stageOne_originalImages (c : Nat) (l : List (JFile × String)) (st : SessionState) :
    (l.foldl (stageOne c) st).originalImages
      = st.originalImages ++ l.map (fun fi => mkImageData fi.1 fi.2) := by
  induction l generalizing st with
  | nil => simp
  | cons x xs ih =>
    rw [List.foldl_cons, ih]
    by_cases h : c = 0 <;> simp [stageOne, h]

/-- Completing the loads of a batch never touches the cached results. -/
theorem foldl_stageOne_resizedImages (c : Nat) (l : List (JFile × String)) (st : SessionState) :
    (l.foldl (stageOne c) st).resizedImages = st.resizedImages := by
  induction l generalizing st with
  | nil => rfl
  | cons x xs ih =>
    rw [List.foldl_cons, ih]
    by_cases h : c = 0 <;> simp [stageOne, h]

/-- Completing the loads of a batch never touches the error. -/
theorem foldl_stageOne_error (c : Nat) (l : List (JFile × String)) (st : SessionState) :
    (l.foldl (stageOne c) st).error = st.error := by
  induction l generalizing st with
  | nil => rfl
  | cons x xs ih =>
    rw [List.foldl_cons, ih]
    by_cases h : c = 0 <;> simp [stageOne, h]

/-- With a nonzero captured count no load seeds the shared settings. -/
theorem foldl_stageOne_options_ne (c : Nat) (hc : c ≠ 0)
    (l : List (JFile × String)) (st : SessionState) :
    (l.foldl (stageOne c) st).resizeOptions = st.resizeOptions := by
  induction l generalizing st with
  | nil => rfl
  | cons x xs ih =>
    rw [List.foldl_cons, ih]
    simp [stageOne, hc]

/-- With captured count zero every load seeds the shared settings, so they
end at the dimensions of the last loaded file. -/
theorem foldl_stageOne_options_last (l : List (JFile × String)) (st : SessionState)
    (la : JFile × String) (h : l.getLast? = some la) :
    (l.foldl (stageOne 0) st).resizeOptions =
      { st.resizeOptions with width := la.1.width, height := la.1.height } := by
  induction l generalizing st with
  | nil => cases h
  | cons x xs ih =>
    cases xs with
    | nil =>
      simp only [List.getLast?_singleton, Option.some.injEq] at h
      subst h
      simp [stageOne]
    | cons y ys =>
      rw [List.getLast?_cons_cons] at h
      rw [List.foldl_cons, ih _ h]
      simp [stageOne]

/-- A key of the updated result map is the inserted key or an old key. -/
theorem mapInsert_key_mem (m : List (String × String)) (k v x : String)
    (h : x ∈ (mapInsert m k v).map Prod.fst) : x = k ∨ x ∈ m.map Prod.fst := by
  unfold mapInsert at h
  rw [List.map_append, List.mem_append] at h
  rcases h with h | h
  · right
    rcases List.mem_map.1 h with ⟨p, hp, hx⟩
    exact List.mem_map.2 ⟨p, List.mem_of_mem_filter hp, hx⟩
  · left
    simpa using h

/-- Keys of a successful batch result come from the accumulator or from the
identifiers of the iterated images. -/
theorem runBatch_ok_keys (opts : ResizeOptions) (respond : ImageData → Option String)
    (imgs : List ImageData) (acc m : List (String × String))
    (h : (runBatch opts respond imgs acc).2 = Except.ok m) :
    ∀ k ∈ m.map Prod.fst, k ∈ acc.map Prod.fst ∨ ∃ img ∈ imgs, img.id = k := by
  induction imgs generalizing acc with
  | nil =>
    simp only [runBatch, Except.ok.injEq] at h
    subst h
    exact fun k hk => Or.inl hk
  | cons img rest ih =>
    simp only [runBatch] at h
    cases hr : respond img with
    | none => rw [hr] at h; cases h
    | some url =>
      rw [hr] at h
      intro k hk
      rcases ih (mapInsert acc img.id url) h k hk with hacc | ⟨i, hi, hik⟩
      · rcases mapInsert_key_mem acc img.id url k hacc with hk2 | hk2
        · exact Or.inr ⟨img, List.mem_cons_self img rest, hk2.symm⟩
        · exact Or.inl hk2
      · exact Or.inr ⟨i, List.mem_cons_of_mem _ hi, hik⟩

/-- When the first failing request is the one for `bad`, the loop issues
exactly the requests for the preceding images and for `bad`, and reports
the name of the failing file. -/
theorem runBatch_failure (opts : ResizeOptions) (respond : ImageData → Option String)
    (pre : List ImageData) (bad : ImageData) (post : List ImageData)
    (acc : List (String × String))
    (hpre : ∀ i ∈ pre, respond i ≠ none) (hbad : respond bad = none) :
    runBatch opts respond (pre ++ bad :: post) acc =
      ((pre ++ [bad]).map (toReq opts), Except.error bad.file.name) := by
  induction pre generalizing acc with
  | nil =>
    simp only [List.nil_append, runBatch, hbad, List.map_cons, List.map_nil]
  | cons i pre ih =>
    have hi : respond i ≠ none := hpre i (List.mem_cons_self i pre)
    cases hr : respond i with
    | none => exact absurd hr hi
    | some url =>
      simp only [List.cons_append, runBatch, hr, List.append_eq]
      rw [ih (mapInsert acc i.id url) (fun j hj => hpre j (List.mem_cons_of_mem _ hj))]
      simp

/-- Editing a dimension never changes the staged images or the cached
results. -/
theorem handleDimensionChange_collections (s : SessionState) (kind : DimKind) (value : Int) :
    (handleDimensionChange s kind value).originalImages = s.originalImages ∧
    (handleDimensionChange s kind value).resizedImages = s.resizedImages := by
  cases hl : s.originalImages with
  | nil => simp [handleDimensionChange, hl]
  | cons first rest =>
    by_cases h : s.resizeOptions.maintainAspectRatio = true <;>
      cases kind <;> simp [handleDimensionChange, hl, h]

/-! ### Theorems: client controller claims -/

/-- C3 counterexample: a batch holding a 6 MB file and a valid file is not
rejected as a whole; the valid file is still staged (with the size error
surfaced), so an invalid individual file does not reject the batch. -/
theorem c3_counterexample :
    validateFile ⟨"a.png", 6291456, "image/png", 100, 50⟩ =
      some "File size must be less than 5MB" ∧
    (handleFileSelect initState
        [(⟨"a.png", 6291456, "image/png", 100, 50⟩, "idA"),
         (⟨"b.png", 100, "image/png", 30, 40⟩, "idB")]).originalImages
      = [mkImageData ⟨"b.png", 100, "image/png", 30, 40⟩ "idB"] := by
  decide

/-- C3 (amended): a batch-add that would exceed the 10-image maximum is
rejected as a whole, with an error stating how many more images may be
added; within the count, each file failing the 5 MB or MIME check is
itself skipped with its error message surfaced (the last failure wins),
while the remaining valid files of the same batch are still staged. -/
theorem c3_amended_staging_policy (s : SessionState) (files : List (JFile × String)) :
    (10 < s.originalImages.length + files.length →
      handleFileSelect s files = { s with error := some (maxImagesMessage s.originalImages.length) }) ∧
    (s.originalImages.length + files.length ≤ 10 →
      (handleFileSelect s files).originalImages
        = s.originalImages
            ++ (files.filter (fun fi => (validateFile fi.1).isNone)).map
                (fun fi => mkImageData fi.1 fi.2) ∧
      (handleFileSelect s files).error
        = (files.filterMap (fun fi => validateFile fi.1)).getLast?) := by
  constructor
  · intro h
    unfold handleFileSelect
    rw [if_pos h]
  · intro h
    have h2 : ¬ 10 < s.originalImages.length + files.length := by omega
    unfold handleFileSelect
    rw [if_neg h2]
    exact ⟨foldl_stageOne_originalImages _ _ _, foldl_stageOne_error _ _ _⟩

/-- C3 witness: an 11-file batch-add on an empty session is rejected as a
whole with the remaining-count message, and a 2-file batch with one
oversized file stages exactly the valid file with the size error. -/
theorem c3_witness :
    handleFileSelect initState
        (List.replicate 11 (⟨"a.png", 100, "image/png", 10, 10⟩, "id1"))
      = { initState with error := some (maxImagesMessage 0) } ∧
    ((handleFileSelect initState
        [(⟨"a.png", 6291456, "image/png", 100, 50⟩, "idA"),
         (⟨"b.png", 100, "image/png", 30, 40⟩, "idB")]).originalImages
      = initState.originalImages
          ++ ([(⟨"a.png", 6291456, "image/png", 100, 50⟩, "idA"),
               (⟨"b.png", 100, "image/png", 30, 40⟩, "idB")].filter
                (fun fi => (validateFile fi.1).isNone)).map
              (fun fi => mkImageData fi.1 fi.2) ∧
     (handleFileSelect initState
        [(⟨"a.png", 6291456, "image/png", 100, 50⟩, "idA"),
         (⟨"b.png", 100, "image/png", 30, 40⟩, "idB")]).error
      = ([(⟨"a.png", 6291456, "image/png", 100, 50⟩, "idA"),
          (⟨"b.png", 100, "image/png", 30, 40⟩, "idB")].filterMap
            (fun fi => validateFile fi.1)).getLast?) :=
  ⟨(c3_amended_staging_policy initState _).1 (by decide),
   (c3_amended_staging_policy initState _).2 (by decide)⟩

/-- C8 counterexample: adding two valid images (100 by 50, then 30 by 40)
to an empty session leaves the shared settings at the dimensions of the
second image, because the stale captured image count makes every load of
the first batch re-seed; the claim that only the very first image seeds the
settings fails. -/
theorem c8_counterexample :
    (handleFileSelect initState
        [(⟨"a.png", 100, "image/png", 100, 50⟩, "id1"),
         (⟨"b.png", 100, "image/png", 30, 40⟩, "id2")]).resizeOptions.width = 30 ∧
    (handleFileSelect initState
        [(⟨"a.png", 100, "image/png", 100, 50⟩, "id1"),
         (⟨"b.png", 100, "image/png", 30, 40⟩, "id2")]).resizeOptions.height = 40 ∧
    ((30 : Int) ≠ 100 ∧ (40 : Int) ≠ 50) := by
  decide

/-- C8 (amended): the shared width and height are re-seeded by every
accepted image of a batch-add that started on an empty session (the
captured image count is stale), so they end at the natural dimensions of
the last accepted image of that batch; a batch-add that starts on a
non-empty session leaves the shared settings unchanged. -/
theorem c8_amended_seeding (s : SessionState) (files : List (JFile × String)) :
    (s.originalImages ≠ [] → (handleFileSelect s files).resizeOptions = s.resizeOptions) ∧
    (s.originalImages = [] → files.length ≤ 10 →
      ∀ la, (files.filter (fun fi => (validateFile fi.1).isNone)).getLast? = some la →
        (handleFileSelect s files).resizeOptions =
          { s.resizeOptions with width := la.1.width, height := la.1.height }) := by
  constructor
  · intro hne
    unfold handleFileSelect
    split_ifs with h
    · rfl
    · have hc : s.originalImages.length ≠ 0 := by
        cases hl : s.originalImages with
        | nil => exact absurd hl hne
        | cons a l => simp
      rw [foldl_stageOne_options_ne _ hc]
  · intro hemp hlen la hla
    have h2 : ¬ 10 < s.originalImages.length + files.length := by
      rw [hemp]; simpa using hlen
    unfold handleFileSelect
    rw [if_neg h2, hemp]
    simp only [List.length_nil]
    rw [foldl_stageOne_options_last _ _ la hla]

/-- C8 witness: on a non-empty session the settings stay; on an empty
session a two-file batch-add ends with the dimensions of the second file. -/
theorem c8_witness :
    (handleFileSelect
        { initState with originalImages := [mkImageData ⟨"x.png", 100, "image/png", 10, 10⟩ "idx"] }
        [(⟨"y.png", 100, "image/png", 77, 88⟩, "idy")]).resizeOptions
      = ({ initState with originalImages := [mkImageData ⟨"x.png", 100, "image/png", 10, 10⟩ "idx"] } : SessionState).resizeOptions ∧
    (handleFileSelect initState
        [(⟨"a.png", 100, "image/png", 100, 50⟩, "id1"),
         (⟨"b.png", 100, "image/png", 30, 40⟩, "id2")]).resizeOptions
      = { initState.resizeOptions with width := 30, height := 40 } :=
  ⟨(c8_amended_seeding _ _).1 (by decide),
   (c8_amended_seeding initState _).2 rfl (by decide)
     (⟨"b.png", 100, "image/png", 30, 40⟩, "id2") (by decide)⟩

/-- Dividing by the aspect ratio equals multiplying by the inverse ratio,
exactly in the rationals (also when a dimension is zero, since division by
zero is zero on both sides). -/
theorem round_div_ratio (v w h : ℚ) : round (v / (w / h)) = round (v * h / w) := by
  rw [div_div_eq_mul_div]

/-- Multiplying by the aspect ratio equals the fused product-quotient. -/
theorem round_mul_ratio (v w h : ℚ) : round (v * (w / h)) = round (v * w / h) := by
  rw [mul_div_assoc]

/-- C7 (confirmed): with at least one staged image and the aspect lock on,
editing the width to v sets the height to round of v times the first
staged image's height over its width, and symmetrically for a height edit;
with the lock off the edited field changes and the other stays. -/
theorem c7_aspect_lock (s : SessionState) (first : ImageData) (rest : List ImageData)
    (horig : s.originalImages = first :: rest) (value : Int) :
    (s.resizeOptions.maintainAspectRatio = true →
      (handleDimensionChange s .width value).resizeOptions.width = value ∧
      (handleDimensionChange s .width value).resizeOptions.height
        = round ((value : ℚ) * (first.height : ℚ) / (first.width : ℚ)) ∧
      (handleDimensionChange s .height value).resizeOptions.height = value ∧
      (handleDimensionChange s .height value).resizeOptions.width
        = round ((value : ℚ) * (first.width : ℚ) / (first.height : ℚ))) ∧
    (s.resizeOptions.maintainAspectRatio = false →
      (handleDimensionChange s .width value).resizeOptions.width = value ∧
      (handleDimensionChange s .width value).resizeOptions.height = s.resizeOptions.height ∧
      (handleDimensionChange s .height value).resizeOptions.height = value ∧
      (handleDimensionChange s .height value).resizeOptions.width = s.resizeOptions.width) := by
  constructor
  · intro hlock
    refine ⟨?_, ?_, ?_, ?_⟩
    · simp [handleDimensionChange, horig, hlock]
    · simp [handleDimensionChange, horig, hlock, round_div_ratio]
    · simp [handleDimensionChange, horig, hlock]
    · simp [handleDimensionChange, horig, hlock, round_mul_ratio]
  · intro hlock
    refine ⟨?_, ?_, ?_, ?_⟩ <;> simp [handleDimensionChange, horig, hlock]

/-- The first staged image of the C7 witness scenario: 400 by 300. -/
def c7First : ImageData := mkImageData ⟨"a.png", 100, "image/png", 400, 300⟩ "c7a"

/-- The C7 witness session with the aspect lock on. -/
def c7LockState : SessionState := { initState with originalImages := [c7First] }

/-- The C7 witness session with the aspect lock off. -/
def c7FreeState : SessionState :=
  { initState with originalImages := [c7First]
                   resizeOptions := { width := 800, height := 600, quality := 100, maintainAspectRatio := false } }

/-- C7 witness: with the 400 by 300 first image and the lock on, a width
edit to 200 recomputes the height and a height edit to 150 recomputes the
width; with the lock off the height keeps its prior value. -/
theorem c7_witness :
    (handleDimensionChange c7LockState .width 200).resizeOptions.width = 200 ∧
    (handleDimensionChange c7LockState .width 200).resizeOptions.height
      = round ((200 : ℚ) * (c7First.height : ℚ) / (c7First.width : ℚ)) ∧
    (handleDimensionChange c7LockState .height 150).resizeOptions.height = 150 ∧
    (handleDimensionChange c7LockState .height 150).resizeOptions.width
      = round ((150 : ℚ) * (c7First.width : ℚ) / (c7First.height : ℚ)) ∧
    (handleDimensionChange c7FreeState .width 200).resizeOptions.height
      = c7FreeState.resizeOptions.height := by
  have h200 := (c7_aspect_lock c7LockState c7First [] rfl 200).1 rfl
  have h150 := (c7_aspect_lock c7LockState c7First [] rfl 150).1 rfl
  have hfree := (c7_aspect_lock c7FreeState c7First [] rfl 200).2 rfl
  exact ⟨h200.1, h200.2.1, h150.2.2.1, h150.2.2.2, hfree.2.1⟩

/-- Modelled from the claim wording of C10: the filename extension, taken
to exist only when the name contains a dot (the lowercased segment after
the last dot), and absent for a dot-free name. -/
def claimFileExtension (name : String) : Option String :=
  if name.data.contains '.' then some (lastDotSegment name) else none

/-- C10 counterexample: a file named jpg, with no dot and hence no
extension, is recorded as jpg rather than webp, because getExt falls back
to the whole lowercased name; the claim that every file without an
extension is recorded as webp fails. -/
theorem c10_counterexample :
    claimFileExtension "jpg" = none ∧
    getExt ⟨"jpg", 100, "image/jpeg", 10, 10⟩ = FileExt.jpg ∧
    FileExt.jpg ≠ FileExt.webp := by
  decide

/-- C10 (amended): for every staged file whose lowercased last
dot-separated name segment (the whole lowercased name when there is no
dot) is not exactly jpeg, jpg or png, the client records the extension
webp, and the batch resize request for that image carries format webp. -/
theorem c10_amended_default_webp (f : JFile) (id : String) (opts : ResizeOptions)
    (h : lastDotSegment f.name ≠ "jpeg" ∧ lastDotSegment f.name ≠ "jpg" ∧
         lastDotSegment f.name ≠ "png") :
    (mkImageData f id).ext = FileExt.webp ∧
    (toReq opts (mkImageData f id)).formatField = "webp" := by
  obtain ⟨h1, h2, h3⟩ := h
  have hx : getExt f = FileExt.webp := by
    unfold getExt
    simp [beq_iff_eq, h1, h2, h3]
  exact ⟨hx, by simp [toReq, mkImageData, hx, extString]⟩

/-- C10 witness: a gif file is recorded as webp and its resize request
carries format webp. -/
theorem c10_witness :
    (mkImageData ⟨"photo.gif", 100, "image/png", 10, 10⟩ "idg").ext = FileExt.webp ∧
    (toReq initState.resizeOptions
        (mkImageData ⟨"photo.gif", 100, "image/png", 10, 10⟩ "idg")).formatField = "webp" :=
  c10_amended_default_webp ⟨"photo.gif", 100, "image/png", 10, 10⟩ "idg"
    initState.resizeOptions (by decide)

/-- First image of the C1 scenario. -/
def c1Img1 : ImageData := mkImageData ⟨"a.png", 100, "image/png", 100, 50⟩ "id1"

/-- Second image of the C1 scenario; its request fails. -/
def c1Img2 : ImageData := mkImageData ⟨"b.jpg", 100, "image/jpeg", 30, 40⟩ "id2"

/-- Third image of the C1 scenario; never requested. -/
def c1Img3 : ImageData := mkImageData ⟨"c.webp", 100, "image/webp", 30, 40⟩ "id3"

/-- The C1 scenario: three staged images and an empty result cache. -/
def c1State : SessionState := { initState with originalImages := [c1Img1, c1Img2, c1Img3] }

/-- The C1 network oracle: only the request for the second image fails. -/
def c1Respond : ImageData → Option String :=
  fun img => if img.id == "id2" then none else some "blob:1"

/-- C1 counterexample: with three staged images and the second request
failing, the cached result set afterwards is empty, not the one successful
result of the first image that the claim requires; the local results of
the aborted run are discarded, while the error does name the failing file
and only two requests were issued. -/
theorem c1_counterexample :
    (handleResize c1State c1Respond).1.resizedImages = [] ∧
    (handleResize c1State c1Respond).1.error = some "Failed to resize image: b.jpg" ∧
    (handleResize c1State c1Respond).2.length = 2 := by
  decide

/-- C1 (amended): when the request for the k-th staged image fails after
the earlier ones succeed, the batch stops with the requests for images 1
to k issued and none after, the error names the failing file, and the
cached result set is left exactly as it was before the batch; the partial
results of the aborted run are discarded, not committed. -/
theorem c1_amended_batch_failure (s : SessionState) (respond : ImageData → Option String)
    (pre : List ImageData) (bad : ImageData) (post : List ImageData)
    (horig : s.originalImages = pre ++ bad :: post)
    (hpre : ∀ i ∈ pre, respond i ≠ none) (hbad : respond bad = none) :
    (handleResize s respond).1.resizedImages = s.resizedImages ∧
    (handleResize s respond).1.error = some ("Failed to resize image: " ++ bad.file.name) ∧
    (handleResize s respond).2 = (pre ++ [bad]).map (toReq s.resizeOptions) := by
  have hne : s.originalImages.length ≠ 0 := by
    rw [horig]; simp
  unfold handleResize
  rw [if_neg hne, horig,
      runBatch_failure s.resizeOptions respond pre bad post [] hpre hbad]
  exact ⟨rfl, rfl, rfl⟩

/-- C1 witness: the concrete three-image scenario instantiating the
amended statement at k equal 2. -/
theorem c1_witness :
    (handleResize c1State c1Respond).1.resizedImages = c1State.resizedImages ∧
    (handleResize c1State c1Respond).1.error
      = some ("Failed to resize image: " ++ c1Img2.file.name) ∧
    (handleResize c1State c1Respond).2
      = ([c1Img1] ++ [c1Img2]).map (toReq c1State.resizeOptions) :=
  c1_amended_batch_failure c1State c1Respond [c1Img1] c1Img2 [c1Img3] rfl
    (by decide) rfl

/-- handleResize keeps the staged images; the cached results are either
untouched (early return or aborted batch) or the committed map of a fully
successful batch. -/
theorem handleResize_state (s : SessionState) (respond : ImageData → Option String) :
    (handleResize s respond).1.originalImages = s.originalImages ∧
    ((handleResize s respond).1.resizedImages = s.resizedImages ∨
      (runBatch s.resizeOptions respond s.originalImages []).2 =
        Except.ok ((handleResize s respond).1.resizedImages)) := by
  by_cases hlen : s.originalImages.length = 0
  · exact ⟨by simp [handleResize, hlen], Or.inl (by simp [handleResize, hlen])⟩
  · cases hres : (runBatch s.resizeOptions respond s.originalImages []).2 with
    | ok m =>
      refine ⟨by simp [handleResize, hlen, hres], Or.inr ?_⟩
      simp [handleResize, hlen, hres]
    | error name =>
      exact ⟨by simp [handleResize, hlen, hres], Or.inl (by simp [handleResize, hlen, hres])⟩

/-- Every controller operation preserves the containment of cached result
keys in the identifiers of staged images. -/
theorem step_preserves_resultKeysCovered (s : SessionState) (op : Op)
    (h : resultKeysCovered s) : resultKeysCovered (step s op) := by
  cases op with
  | select files =>
    intro k hk
    by_cases hcount : 10 < s.originalImages.length + files.length
    · simp only [step, handleFileSelect, if_pos hcount] at hk ⊢
      exact h k hk
    · simp only [step, handleFileSelect, if_neg hcount,
                 foldl_stageOne_resizedImages, foldl_stageOne_originalImages] at hk ⊢
      rcases h k hk with ⟨img, himg, hid⟩
      exact ⟨img, List.mem_append_left _ himg, hid⟩
  | dims kind v =>
    intro k hk
    rw [show step s (Op.dims kind v) = handleDimensionChange s kind v from rfl,
        (handleDimensionChange_collections s kind v).2] at hk
    rcases h k hk with ⟨img, himg, hid⟩
    refine ⟨img, ?_, hid⟩
    rw [show step s (Op.dims kind v) = handleDimensionChange s kind v from rfl,
        (handleDimensionChange_collections s kind v).1]
    exact himg
  | resize respond =>
    intro k hk
    rcases handleResize_state s respond with ⟨horig, hres | hres⟩
    · rw [show step s (Op.resize respond) = (handleResize s respond).1 from rfl] at hk ⊢
      rw [hres] at hk
      rcases h k hk with ⟨img, himg, hid⟩
      refine ⟨img, ?_, hid⟩
      rw [horig]
      exact himg
    · rw [show step s (Op.resize respond) = (handleResize s respond).1 from rfl] at hk ⊢
      rcases runBatch_ok_keys s.resizeOptions respond s.originalImages []
          (handleResize s respond).1.resizedImages hres k hk with hacc | ⟨img, himg, hid⟩
      · simp at hacc
      · refine ⟨img, ?_, hid⟩
        rw [horig]
        exact himg
  | remove id =>
    intro k hk
    simp only [step, removeImage] at hk ⊢
    rcases List.mem_map.1 hk with ⟨p, hp, hpk⟩
    have hpf := List.mem_filter.1 hp
    rcases h p.1 (List.mem_map.2 ⟨p, hpf.1, rfl⟩) with ⟨img, himg, hid⟩
    refine ⟨img, ?_, by rw [hid, hpk]⟩
    apply List.mem_filter.2
    refine ⟨himg, ?_⟩
    rw [hid]
    exact hpf.2
  | clear =>
    intro k hk
    simp [step, clearAll] at hk

/-- C9 (confirmed): in every session state reachable from the initial
state by controller operations, each key of the cached result map is the
identifier of a currently staged image: staging files, editing dimensions,
batch resize, removing one image and clearing all each preserve the
containment, so no removed or cleared image leaves an orphaned cached
result. -/
theorem c9_result_keys_invariant (ops : List Op) : resultKeysCovered (run ops) := by
  have hinit : resultKeysCovered initState := by
    intro k hk
    simp [initState] at hk
  have hstep : ∀ (l : List Op) (s : SessionState), resultKeysCovered s →
      resultKeysCovered (l.foldl step s) := by
    intro l
    induction l with
    | nil => exact fun s h => h
    | cons op rest ih =>
      intro s h
      exact ih _ (step_preserves_resultKeysCovered s op h)
  exact hstep ops initState hinit
